import Mathlib

/-!
Parameter validation of the leveragelp module.

A shallow embedding of `x/leveragelp/types/params.go`: the parameter record,
its default constructor, the fail-fast validator and the duplicate scan.

Fixed-point decimals (`sdkmath.LegacyDec`) are modelled by their underlying
integer, scaled by `10 ^ 18`, with `none` for the nil decimal.  The signed
64-bit fields are integers and pool identifiers are naturals; no arithmetic
is performed on them, so every statement below holds in particular for the
machine ranges.  Errors are the strings built by `fmt.Errorf`.
-/

namespace Leveragelp

/-- Number of decimal places of `sdkmath.LegacyDec`. -/
def LegacyPrecision : Nat := 18

/-- The decimal `sdkmath.LegacyDec`: a pointer to a big integer holding the
value scaled by `10 ^ LegacyPrecision`; `none` is the nil pointer. -/
structure LegacyDec where
  i : Option Int
  deriving DecidableEq, Repr

/-- The method `LegacyDec.IsNil`: the underlying pointer is nil. -/
def LegacyDec.IsNil (d : LegacyDec) : Bool := d.i.isNone

/-- The scaled integer of `sdkmath.LegacyOneDec()`. -/
def oneInt : Int := 10 ^ LegacyPrecision

/-- The decimal `sdkmath.LegacyOneDec()`. -/
def LegacyOneDec : LegacyDec := ⟨some oneInt⟩

/-- The constructor `sdkmath.LegacyNewDec(n)`: the integer `n` as a decimal. -/
def LegacyNewDec (n : Int) : LegacyDec := ⟨some (n * 10 ^ LegacyPrecision)⟩

/-- The constructor `sdkmath.LegacyNewDecWithPrec(n, prec)`: `n / 10 ^ prec`, for
`prec ≤ LegacyPrecision`. -/
def LegacyNewDecWithPrec (n : Int) (prec : Nat) : LegacyDec :=
  ⟨some (n * 10 ^ (LegacyPrecision - prec))⟩

/-- Value of a decimal digit character, `none` for any other character. -/
def digitValue (c : Char) : Option Nat :=
  if '0' ≤ c ∧ c ≤ '9' then some (c.toNat - '0'.toNat) else none

/-- Base-10 reading of a digit string, as `big.Int.SetString(s, 10)` does for
an unsigned digit sequence; `acc` is the value read so far. -/
def parseDigits : List Char → Nat → Option Nat
  | [], acc => some acc
  | c :: cs, acc =>
    match digitValue c with
    | none => none
    | some d => parseDigits cs (acc * 10 + d)

/-- Split of a character list at every `'.'`, as `strings.Split(str, ".")`. -/
def splitDot : List Char → List (List Char)
  | [] => [[]]
  | c :: cs =>
    match splitDot cs with
    | [] => [[]]
    | part :: parts => if c = '.' then [] :: part :: parts else (c :: part) :: parts

/-- The body of `sdkmath.LegacyNewDecFromStr` on the unsigned part of the literal: at most
one decimal point, at most `LegacyPrecision` fractional digits, padded with
zeros to the full precision and read in base 10.  A sign inside the literal,
which `SetString` would accept, and the bound on the bit length are left out;
the literals of `NewParams` reach neither. -/
def parseUnsignedDec (str : List Char) : Option Nat :=
  if str.length = 0 then none else
  match splitDot str with
  | [whole] => parseDigits (whole ++ List.replicate LegacyPrecision '0') 0
  | [whole, frac] =>
    if frac.length = 0 ∨ whole.length = 0 then none
    else if frac.length > LegacyPrecision then none
    else parseDigits (whole ++ frac ++ List.replicate (LegacyPrecision - frac.length) '0') 0
  | _ => none

/-- The parser `sdkmath.LegacyNewDecFromStr`: an optional leading minus sign followed by
an unsigned decimal literal; `none` is the error result. -/
def LegacyNewDecFromStr (str : String) : Option LegacyDec :=
  match str.data with
  | '-' :: rest => (parseUnsignedDec rest).map fun n => ⟨some (-(n : Int))⟩
  | cs => (parseUnsignedDec cs).map fun n => ⟨some (n : Int)⟩

/-- The parser `sdkmath.LegacyMustNewDecFromStr`.  The library panics when the literal
does not parse; that branch is represented by the nil decimal, which
`Validate` rejects. -/
def LegacyMustNewDecFromStr (str : String) : LegacyDec :=
  match LegacyNewDecFromStr str with
  | some d => d
  | none => ⟨none⟩

/-- Decimal digits of a natural number, most significant first, as
`big.Int.MarshalText` prints a non-negative integer. -/
def natDigits (n : Nat) : List Char := (Nat.toDigits 10 n)

/-- Rendering of a present decimal with scaled integer `v`, as
`LegacyDec.String`: sign, integer part, point, eighteen fractional digits. -/
def decString (v : Int) : String :=
  let bzInt := natDigits v.natAbs
  let inputSize := bzInt.length
  let bzStr :=
    if inputSize ≤ LegacyPrecision then
      '0' :: '.' :: (List.replicate (LegacyPrecision - inputSize) '0' ++ bzInt)
    else
      bzInt.take (inputSize - LegacyPrecision) ++ '.' :: bzInt.drop (inputSize - LegacyPrecision)
  if v < 0 then "-" ++ bzStr.asString else bzStr.asString

/-- Rendering of a signed 64-bit integer by the `%d` verb. -/
def intString (n : Int) : String :=
  if n < 0 then "-" ++ (natDigits n.natAbs).asString else (natDigits n.natAbs).asString

/-- The parameter record `Params` (generated from the module's protobuf
definition), with the fields in the order `NewParams` sets them. -/
structure Params where
  LeverageMax : LegacyDec
  EpochLength : Int
  MaxOpenPositions : Int
  PoolOpenThreshold : LegacyDec
  SafetyFactor : LegacyDec
  WhitelistingEnabled : Bool
  FallbackEnabled : Bool
  NumberPerBlock : Int
  EnabledPools : List Nat
  ExitBuffer : LegacyDec
  StopLossEnabled : Bool
  LiabilitiesFactor : LegacyDec
  deriving DecidableEq, Repr

/-- The constructor `NewParams` creates a new Params instance. -/
def NewParams : Params where
  LeverageMax := LegacyNewDec 10
  EpochLength := 1
  MaxOpenPositions := 9999
  PoolOpenThreshold := LegacyNewDecWithPrec 2 1
  SafetyFactor := LegacyNewDecWithPrec 11 1
  WhitelistingEnabled := false
  FallbackEnabled := true
  NumberPerBlock := 1000
  EnabledPools := []
  ExitBuffer := LegacyMustNewDecFromStr "0.05"
  StopLossEnabled := true
  LiabilitiesFactor := LegacyMustNewDecFromStr "1.0"

/-- The function `DefaultParams` returns a default set of parameters. -/
def DefaultParams : Params := NewParams

/-- The loop of `containsDuplicates`: `valueMap` holds the keys inserted so
far; the scan stops with `true` at the first element already present. -/
def containsDuplicatesLoop (valueMap : List Nat) : List Nat → Bool
  | [] => false
  | num :: rest =>
    if num ∈ valueMap then true
    else containsDuplicatesLoop (num :: valueMap) rest

/-- The function `containsDuplicates`: the scan started with an empty map. -/
def containsDuplicates (arr : List Nat) : Bool :=
  containsDuplicatesLoop [] arr

/-- The method `Params.Validate`: the checks of the source in their order, each returning
its error at once; `none` is the nil error.  `MaxPageLimit` is the page-size
constant of the package, declared outside this file, taken as a parameter.
A nil check is the `none` branch of the match; the comparisons that follow
it in the source act on the present value. -/
def Validate (MaxPageLimit : Int) (p : Params) : Option String :=
  match p.LeverageMax.i with
  | none => some "leverage max must be not nil"
  | some leverageMax =>
  if ¬ (leverageMax > oneInt) then
    some ("leverage max must be greater than 1: " ++ decString leverageMax)
  else if p.EpochLength ≤ 0 then
    some ("epoch length should be positive: " ++ intString p.EpochLength)
  else
  match p.PoolOpenThreshold.i with
  | none => some "pool open threshold must be not nil"
  | some poolOpenThreshold =>
  if ¬ (poolOpenThreshold > 0) then
    some ("pool open threshold must be positive: " ++ decString poolOpenThreshold)
  else
  match p.SafetyFactor.i with
  | none => some "safety factor must be not nil"
  | some safetyFactor =>
  if ¬ (safetyFactor > 0) then
    some ("safety factor must be positive: " ++ decString safetyFactor)
  else if p.NumberPerBlock < 0 then
    some ("number of positions per block must be positive: " ++ intString p.NumberPerBlock)
  else if p.NumberPerBlock > MaxPageLimit then
    some ("number of positions per block should not exceed page limit: "
      ++ intString MaxPageLimit ++ ", number of positions: " ++ intString p.NumberPerBlock)
  else if containsDuplicates p.EnabledPools then
    some "array must not contain duplicate values"
  else
  match p.ExitBuffer.i with
  | none => some "exit buffer must be not nil"
  | some _ =>
  match p.LiabilitiesFactor.i with
  | none => some "liabilities factor must be not nil"
  | some liabilitiesFactor =>
  if ¬ (liabilitiesFactor > 0) then
    some ("liabilities factor must be positive: " ++ decString liabilitiesFactor)
  else if liabilitiesFactor > oneInt then
    some ("liabilities factor must be less than or equal to 1: " ++ decString liabilitiesFactor)
  else none

/-- The rational number a decimal denotes: the scaled integer divided by
`10 ^ LegacyPrecision`; `none` for the nil decimal. -/
def LegacyDec.toRat (d : LegacyDec) : Option ℚ :=
  d.i.map fun v => (v : ℚ) / (10 : ℚ) ^ LegacyPrecision

/-- The checks of the validator as the specification enumerates them, each
taken on its own: a check yields its error when it is violated and `none`
when it passes.  A bound on a decimal passes on the nil decimal, whose
absence is the business of the presence check listed before it. -/
def checkSequence (MaxPageLimit : Int) : List (Params → Option String) :=
  [ fun p => if p.LeverageMax.IsNil then some "leverage max must be not nil" else none,
    fun p => match p.LeverageMax.i with
      | some v => if v ≤ oneInt then
          some ("leverage max must be greater than 1: " ++ decString v) else none
      | none => none,
    fun p => if p.EpochLength ≤ 0 then
      some ("epoch length should be positive: " ++ intString p.EpochLength) else none,
    fun p => if p.PoolOpenThreshold.IsNil then
      some "pool open threshold must be not nil" else none,
    fun p => match p.PoolOpenThreshold.i with
      | some v => if v ≤ 0 then
          some ("pool open threshold must be positive: " ++ decString v) else none
      | none => none,
    fun p => if p.SafetyFactor.IsNil then some "safety factor must be not nil" else none,
    fun p => match p.SafetyFactor.i with
      | some v => if v ≤ 0 then
          some ("safety factor must be positive: " ++ decString v) else none
      | none => none,
    fun p => if p.NumberPerBlock < 0 then
      some ("number of positions per block must be positive: " ++ intString p.NumberPerBlock)
      else none,
    fun p => if MaxPageLimit < p.NumberPerBlock then
      some ("number of positions per block should not exceed page limit: "
        ++ intString MaxPageLimit ++ ", number of positions: " ++ intString p.NumberPerBlock)
      else none,
    fun p => if ¬ p.EnabledPools.Nodup then
      some "array must not contain duplicate values" else none,
    fun p => if p.ExitBuffer.IsNil then some "exit buffer must be not nil" else none,
    fun p => if p.LiabilitiesFactor.IsNil then
      some "liabilities factor must be not nil" else none,
    fun p => match p.LiabilitiesFactor.i with
      | some v => if v ≤ 0 then
          some ("liabilities factor must be positive: " ++ decString v) else none
      | none => none,
    fun p => match p.LiabilitiesFactor.i with
      | some v => if oneInt < v then
          some ("liabilities factor must be less than or equal to 1: " ++ decString v) else none
      | none => none ]

/-- The error of the first violated check of a sequence, `none` when every
check passes. -/
def firstViolation (checks : List (Params → Option String)) (p : Params) : Option String :=
  checks.findSome? fun c => c p

/-- The default set with LeverageMax, PoolOpenThreshold, SafetyFactor and
LiabilitiesFactor all absent. -/
def nilDecimalsCandidate : Params :=
  { NewParams with
    LeverageMax := ⟨none⟩
    PoolOpenThreshold := ⟨none⟩
    SafetyFactor := ⟨none⟩
    LiabilitiesFactor := ⟨none⟩ }

/-- Number of decimal places of `osmomath.BigDec`. -/
def BigDecPrecision : Nat := 36

/-- The extended-precision decimal `osmomath.BigDec`: a big integer holding
the value scaled by `10 ^ BigDecPrecision`. -/
structure BigDec where
  i : Int
  deriving DecidableEq, Repr

/-- The rational number an extended-precision decimal denotes. -/
def BigDec.toRat (b : BigDec) : ℚ := (b.i : ℚ) / (10 : ℚ) ^ BigDecPrecision

/-- The library conversion `osmomath.BigDecFromDec`: the underlying integer of
the decimal multiplied by `10 ^ (BigDecPrecision - LegacyPrecision)`.  The
library multiplies the big integer behind the pointer; on the nil decimal
there is no integer to multiply and the call panics with a nil dereference,
which is the `none` result. -/
def BigDecFromDec (d : LegacyDec) : Option BigDec :=
  match d.i with
  | none => none
  | some v => some ⟨v * 10 ^ (BigDecPrecision - LegacyPrecision)⟩

/-- The library conversion `BigDec.Dec` back to standard precision: the
scaled integer divided by `10 ^ (BigDecPrecision - LegacyPrecision)` with the
quotient truncated toward zero, as `big.Int.Quo` does. -/
def BigDec.Dec (b : BigDec) : LegacyDec :=
  ⟨some (b.i.tdiv (10 ^ (BigDecPrecision - LegacyPrecision)))⟩

/-- The method `Params.GetBigDecSafetyFactor`. -/
def GetBigDecSafetyFactor (p : Params) : Option BigDec :=
  BigDecFromDec p.SafetyFactor

/-- The method `Params.GetBigDecPoolOpenThreshold`. -/
def GetBigDecPoolOpenThreshold (p : Params) : Option BigDec :=
  BigDecFromDec p.PoolOpenThreshold

/-- The method `Params.GetBigDecExitBuffer`. -/
def GetBigDecExitBuffer (p : Params) : Option BigDec :=
  BigDecFromDec p.ExitBuffer

/-- The default set with SafetyFactor, PoolOpenThreshold and ExitBuffer
absent. -/
def nilAdapterCandidate : Params :=
  { NewParams with
    SafetyFactor := ⟨none⟩
    PoolOpenThreshold := ⟨none⟩
    ExitBuffer := ⟨none⟩ }

/-- The fields `Validate` constrains, one for each group of its checks. -/
inductive Field
  | LeverageMax
  | EpochLength
  | PoolOpenThreshold
  | SafetyFactor
  | NumberPerBlock
  | EnabledPools
  | ExitBuffer
  | LiabilitiesFactor
  deriving DecidableEq, Repr

/-- The fields in the order `Validate` checks them. -/
def fieldOrder : List Field :=
  [.LeverageMax, .EpochLength, .PoolOpenThreshold, .SafetyFactor, .NumberPerBlock,
    .EnabledPools, .ExitBuffer, .LiabilitiesFactor]

/-- The leading words of the error messages of a field's checks, read off the
format strings of `Validate`: the name of the field in words, except for
EnabledPools, whose only message starts with `array`. -/
def Field.errorWords : Field → String
  | .LeverageMax => "leverage max"
  | .EpochLength => "epoch length"
  | .PoolOpenThreshold => "pool open threshold"
  | .SafetyFactor => "safety factor"
  | .NumberPerBlock => "number of positions per block"
  | .EnabledPools => "array"
  | .ExitBuffer => "exit buffer"
  | .LiabilitiesFactor => "liabilities factor"

/-- Whether a message starts with the given words. -/
def startsWith (words msg : String) : Bool := words.data.isPrefixOf msg.data

/-- The field an error message belongs to, recovered from the message alone:
the first field whose leading words the message starts with. -/
def errorField (msg : String) : Option Field :=
  fieldOrder.find? fun f => startsWith f.errorWords msg

/-- Whether a field of a candidate meets the constraint the specification
lists for it. -/
def Field.holds (MaxPageLimit : Int) (p : Params) : Field → Bool
  | .LeverageMax =>
    match p.LeverageMax.i with
    | some v => decide (oneInt < v)
    | none => false
  | .EpochLength => decide (0 < p.EpochLength)
  | .PoolOpenThreshold =>
    match p.PoolOpenThreshold.i with
    | some v => decide (0 < v)
    | none => false
  | .SafetyFactor =>
    match p.SafetyFactor.i with
    | some v => decide (0 < v)
    | none => false
  | .NumberPerBlock => decide (0 ≤ p.NumberPerBlock ∧ p.NumberPerBlock ≤ MaxPageLimit)
  | .EnabledPools => decide p.EnabledPools.Nodup
  | .ExitBuffer => p.ExitBuffer.i.isSome
  | .LiabilitiesFactor =>
    match p.LiabilitiesFactor.i with
    | some v => decide (0 < v ∧ v ≤ oneInt)
    | none => false

/-- The field at fault: the first field, in checking order, whose constraint
the candidate violates; `none` when every constraint holds. -/
def faultField (MaxPageLimit : Int) (p : Params) : Option Field :=
  fieldOrder.find? fun f => !(f.holds MaxPageLimit p)

/-! ## The duplicate scan -/

theorem containsDuplicatesLoop_eq_true_iff (arr valueMap : List Nat) :
    containsDuplicatesLoop valueMap arr = true ↔ (∃ x ∈ arr, x ∈ valueMap) ∨ ¬ arr.Nodup := by
  induction arr generalizing valueMap with
  | nil => simp [containsDuplicatesLoop]
  | cons num rest ih =>
    unfold containsDuplicatesLoop
    by_cases hmem : num ∈ valueMap
    · simp [hmem]
    · simp only [hmem, if_false, ih, List.mem_cons, List.nodup_cons, not_and_or, not_not]
      constructor
      · rintro (⟨x, hx, rfl | hx'⟩ | h)
        · exact Or.inr (Or.inl hx)
        · exact Or.inl ⟨x, Or.inr hx, hx'⟩
        · exact Or.inr (Or.inr h)
      · rintro (⟨x, rfl | hx, hx'⟩ | h | h)
        · exact absurd hx' hmem
        · exact Or.inl ⟨x, hx, Or.inr hx'⟩
        · exact Or.inl ⟨num, h, Or.inl rfl⟩
        · exact Or.inr h

theorem containsDuplicates_eq_true_iff (arr : List Nat) :
    containsDuplicates arr = true ↔ ¬ arr.Nodup := by
  simp [containsDuplicates, containsDuplicatesLoop_eq_true_iff]

theorem containsDuplicates_eq_false_iff (arr : List Nat) :
    containsDuplicates arr = false ↔ arr.Nodup := by
  rw [← Bool.not_eq_true, containsDuplicates_eq_true_iff, not_not]

/-! ## Success of the validator -/

theorem validate_eq_none_iff (MaxPageLimit : Int) (p : Params) :
    Validate MaxPageLimit p = none ↔
      (∃ v, p.LeverageMax.i = some v ∧ oneInt < v) ∧
      0 < p.EpochLength ∧
      (∃ v, p.PoolOpenThreshold.i = some v ∧ 0 < v) ∧
      (∃ v, p.SafetyFactor.i = some v ∧ 0 < v) ∧
      (0 ≤ p.NumberPerBlock ∧ p.NumberPerBlock ≤ MaxPageLimit) ∧
      p.EnabledPools.Nodup ∧
      p.ExitBuffer.i ≠ none ∧
      (∃ v, p.LiabilitiesFactor.i = some v ∧ 0 < v ∧ v ≤ oneInt) := by
  rcases p with ⟨⟨lm⟩, el, mo, ⟨po⟩, ⟨sf⟩, we, fe, nb, ep, ⟨eb⟩, sl, ⟨lf⟩⟩
  rw [← containsDuplicates_eq_false_iff]
  unfold Validate
  cases lm with
  | none => simp
  | some lm =>
  by_cases h1 : lm > oneInt
  swap
  · simp [h1]
  by_cases h2 : el ≤ 0
  · simp [h1, h2]
  cases po with
  | none => simp [h1, h2]
  | some po =>
  by_cases h3 : po > 0
  swap
  · simp [h1, h2, h3]
  cases sf with
  | none => simp [h1, h2, h3]
  | some sf =>
  by_cases h4 : sf > 0
  swap
  · simp [h1, h2, h3, h4]
  by_cases h5 : nb < 0
  · simp [h1, h2, h3, h4, h5]
  by_cases h6 : nb > MaxPageLimit
  · simp [h1, h2, h3, h4, h5, h6]
  cases h7 : containsDuplicates ep with
  | true => simp [h1, h2, h3, h4, h5, h6]
  | false =>
  cases eb with
  | none => simp [h1, h2, h3, h4, h5, h6]
  | some eb =>
  cases lf with
  | none => simp [h1, h2, h3, h4, h5, h6]
  | some lf =>
  by_cases h8 : lf > 0
  swap
  · simp [h1, h2, h3, h4, h5, h6, h8]
  by_cases h9 : lf > oneInt
  · simp [h1, h2, h3, h4, h5, h6, h8, h9]
  · simp only [gt_iff_lt, not_lt, not_le] at *
    simp [h1, h2, h3, h4, h5, h6, h8, h9, not_lt.mpr h5, not_lt.mpr h6, not_lt.mpr h9,
      not_le.mpr h1, not_le.mpr h2, not_le.mpr h3, not_le.mpr h4, not_le.mpr h8]

/-- The record `NewParams` builds, with every decimal as its scaled
integer. -/
theorem newParams_fields :
    NewParams =
      { LeverageMax := ⟨some 10000000000000000000⟩
        EpochLength := 1
        MaxOpenPositions := 9999
        PoolOpenThreshold := ⟨some 200000000000000000⟩
        SafetyFactor := ⟨some 1100000000000000000⟩
        WhitelistingEnabled := false
        FallbackEnabled := true
        NumberPerBlock := 1000
        EnabledPools := []
        ExitBuffer := ⟨some 50000000000000000⟩
        StopLossEnabled := true
        LiabilitiesFactor := ⟨some 1000000000000000000⟩ } := by
  decide

theorem oneInt_eq : oneInt = 1000000000000000000 := by decide

/-- Claim C1: for every parameter record, with any field values and decimals
possibly nil, `Validate` returns the nil error exactly when LeverageMax is
present and greater than 1, EpochLength is positive, PoolOpenThreshold and
SafetyFactor are present and positive, NumberPerBlock lies between 0 and
MaxPageLimit inclusive, EnabledPools has no value twice, ExitBuffer is
present, and LiabilitiesFactor is present, positive and at most 1. -/
theorem Validate_success_iff (MaxPageLimit : Int) (p : Params) :
    Validate MaxPageLimit p = none ↔
      (p.LeverageMax.IsNil = false ∧ ∃ v, p.LeverageMax.i = some v ∧ oneInt < v) ∧
      0 < p.EpochLength ∧
      (p.PoolOpenThreshold.IsNil = false ∧ ∃ v, p.PoolOpenThreshold.i = some v ∧ 0 < v) ∧
      (p.SafetyFactor.IsNil = false ∧ ∃ v, p.SafetyFactor.i = some v ∧ 0 < v) ∧
      (0 ≤ p.NumberPerBlock ∧ p.NumberPerBlock ≤ MaxPageLimit) ∧
      p.EnabledPools.Nodup ∧
      p.ExitBuffer.IsNil = false ∧
      (p.LiabilitiesFactor.IsNil = false ∧
        ∃ v, p.LiabilitiesFactor.i = some v ∧ 0 < v ∧ v ≤ oneInt) := by
  rw [validate_eq_none_iff]
  have hnil : ∀ d : LegacyDec, ∀ P : Int → Prop,
      (d.IsNil = false ∧ ∃ v, d.i = some v ∧ P v) ↔ ∃ v, d.i = some v ∧ P v := by
    intro d P
    constructor
    · exact fun h => h.2
    · rintro ⟨v, hv, hP⟩
      exact ⟨by simp [LegacyDec.IsNil, hv], v, hv, hP⟩
  have heb : p.ExitBuffer.IsNil = false ↔ p.ExitBuffer.i ≠ none := by
    cases h : p.ExitBuffer.i <;> simp [LegacyDec.IsNil, h]
  rw [hnil, hnil, hnil, hnil, heb]

/-- Claim C2: validation of the default constructor's output succeeds, for
`DefaultParams` and for `NewParams` alike, the page-size constant of the
package (declared outside the file) being at least the default
NumberPerBlock of 1000. -/
theorem DefaultParams_Validate (MaxPageLimit : Int) (hlimit : 1000 ≤ MaxPageLimit) :
    Validate MaxPageLimit DefaultParams = none ∧ Validate MaxPageLimit NewParams = none := by
  have h : Validate MaxPageLimit NewParams = none := by
    rw [validate_eq_none_iff, newParams_fields, oneInt_eq]
    refine ⟨⟨_, rfl, by decide⟩, by decide, ⟨_, rfl, by decide⟩, ⟨_, rfl, by decide⟩,
      ⟨by decide, hlimit⟩, List.nodup_nil, by decide, ⟨_, rfl, by decide, by decide⟩⟩
  exact ⟨h, h⟩

theorem DefaultParams_Validate_witness :
    (1000 : Int) ≤ 10000 ∧
      Validate 10000 DefaultParams = none ∧ Validate 10000 NewParams = none :=
  ⟨by decide, DefaultParams_Validate 10000 (by decide)⟩

/-- Claim C4: `NewParams`, and `DefaultParams` which returns the same value,
yield the genesis baseline: LeverageMax 10, EpochLength 1, PoolOpenThreshold
0.2, SafetyFactor 1.1, NumberPerBlock 1000, ExitBuffer 0.05, LiabilitiesFactor
1.0, whitelisting off, fallback and stop-loss on, no enabled pools, every
decimal present, and MaxOpenPositions 9999. -/
theorem NewParams_baseline :
    DefaultParams = NewParams ∧
    NewParams.LeverageMax.toRat = some 10 ∧
    NewParams.EpochLength = 1 ∧
    NewParams.PoolOpenThreshold.toRat = some (2 / 10) ∧
    NewParams.SafetyFactor.toRat = some (11 / 10) ∧
    NewParams.NumberPerBlock = 1000 ∧
    NewParams.ExitBuffer.toRat = some (5 / 100) ∧
    NewParams.LiabilitiesFactor.toRat = some 1 ∧
    NewParams.WhitelistingEnabled = false ∧
    NewParams.FallbackEnabled = true ∧
    NewParams.StopLossEnabled = true ∧
    NewParams.EnabledPools = [] ∧
    NewParams.LeverageMax.IsNil = false ∧
    NewParams.PoolOpenThreshold.IsNil = false ∧
    NewParams.SafetyFactor.IsNil = false ∧
    NewParams.ExitBuffer.IsNil = false ∧
    NewParams.LiabilitiesFactor.IsNil = false ∧
    NewParams.MaxOpenPositions = 9999 := by
  rw [newParams_fields]
  refine ⟨rfl, ?_, rfl, ?_, ?_, rfl, ?_, ?_, rfl, rfl, rfl, rfl, rfl, rfl, rfl, rfl, rfl, rfl⟩ <;>
    simp only [LegacyDec.toRat, LegacyPrecision, Option.map_some', Option.some.injEq] <;>
    norm_num

/-! ## Fail-fast order -/

theorem validate_eq_firstViolation (MaxPageLimit : Int) (p : Params) :
    Validate MaxPageLimit p = firstViolation (checkSequence MaxPageLimit) p := by
  rcases p with ⟨⟨lm⟩, el, mo, ⟨po⟩, ⟨sf⟩, we, fe, nb, ep, ⟨eb⟩, sl, ⟨lf⟩⟩
  unfold Validate firstViolation checkSequence
  simp only [List.findSome?, LegacyDec.IsNil, ← containsDuplicates_eq_true_iff, gt_iff_lt, not_lt]
  cases lm with
  | none => simp
  | some lm =>
  by_cases h1 : lm ≤ oneInt
  · simp [h1]
  by_cases h2 : el ≤ 0
  · simp [h1, h2]
  cases po with
  | none => simp [h1, h2]
  | some po =>
  by_cases h3 : po ≤ 0
  · simp [h1, h2, h3]
  cases sf with
  | none => simp [h1, h2, h3]
  | some sf =>
  by_cases h4 : sf ≤ 0
  · simp [h1, h2, h3, h4]
  by_cases h5 : nb < 0
  · simp [h1, h2, h3, h4, h5]
  by_cases h6 : MaxPageLimit < nb
  · simp [h1, h2, h3, h4, h5, h6]
  cases h7 : containsDuplicates ep with
  | true => simp [h1, h2, h3, h4, h5, h6]
  | false =>
  cases eb with
  | none => simp [h1, h2, h3, h4, h5, h6]
  | some eb =>
  cases lf with
  | none => simp [h1, h2, h3, h4, h5, h6]
  | some lf =>
  by_cases h8 : lf ≤ 0
  · simp [h1, h2, h3, h4, h5, h6, h8]
  by_cases h9 : oneInt < lf
  · simp [h1, h2, h3, h4, h5, h6, h8, h9]
  · simp [h1, h2, h3, h4, h5, h6, h8, h9]

theorem findSome?_append_cons_of_none {α β : Type} (f : α → Option β)
    (pre : List α) (c : α) (post : List α) (e : β)
    (hpre : ∀ c' ∈ pre, f c' = none) (hc : f c = some e) :
    (pre ++ c :: post).findSome? f = some e := by
  induction pre with
  | nil => simp [List.findSome?, hc]
  | cons a pre ih =>
    have ha : f a = none := hpre a (List.mem_cons_self a pre)
    simp only [List.cons_append, List.findSome?, ha]
    exact ih fun c' hc' => hpre c' (List.mem_cons_of_mem a hc')

/-- Claim C3: `Validate` is fail-fast in the enumerated order.  Its result is
the error of the first violated check of the sequence LeverageMax (nil, then
greater than 1), EpochLength, PoolOpenThreshold (nil, then positive),
SafetyFactor (nil, then positive), NumberPerBlock (non-negative, then at most
MaxPageLimit), EnabledPools, ExitBuffer, LiabilitiesFactor (nil, then
positive, then at most 1); hence when a check fails and all checks before it
pass, its error is returned whatever the later checks would say. -/
theorem Validate_fail_fast (MaxPageLimit : Int) (p : Params) :
    Validate MaxPageLimit p = firstViolation (checkSequence MaxPageLimit) p ∧
    ∀ (pre : List (Params → Option String)) (c : Params → Option String)
      (post : List (Params → Option String)) (e : String),
      checkSequence MaxPageLimit = pre ++ c :: post →
      (∀ c' ∈ pre, c' p = none) → c p = some e →
      Validate MaxPageLimit p = some e := by
  refine ⟨validate_eq_firstViolation MaxPageLimit p, ?_⟩
  intro pre c post e hseq hpre hc
  rw [validate_eq_firstViolation, firstViolation, hseq]
  exact findSome?_append_cons_of_none (fun c => c p) pre c post e hpre hc

theorem Validate_fail_fast_witness :
    checkSequence 10000 =
        (checkSequence 10000).take 2 ++
          (fun p : Params => if p.EpochLength ≤ 0 then
            some ("epoch length should be positive: " ++ intString p.EpochLength) else none) ::
          (checkSequence 10000).drop 3 ∧
      (∀ c' ∈ (checkSequence 10000).take 2,
        c' { NewParams with EpochLength := 0, EnabledPools := [7, 7],
                            LiabilitiesFactor := ⟨none⟩ } = none) ∧
      Validate 10000 { NewParams with EpochLength := 0, EnabledPools := [7, 7],
                                      LiabilitiesFactor := ⟨none⟩ } =
        some "epoch length should be positive: 0" :=
  ⟨rfl, by decide,
    (Validate_fail_fast 10000
      { NewParams with EpochLength := 0, EnabledPools := [7, 7], LiabilitiesFactor := ⟨none⟩ }).2
      ((checkSequence 10000).take 2) _ ((checkSequence 10000).drop 3)
      "epoch length should be positive: 0" rfl (by decide) (by decide)⟩

/-! ## Errors of the single checks -/

theorem validate_leverageMax_nil (MaxPageLimit : Int) (p : Params)
    (h : p.LeverageMax.i = none) :
    Validate MaxPageLimit p = some "leverage max must be not nil" := by
  unfold Validate
  simp [h]

theorem validate_leverageMax_le (MaxPageLimit : Int) (p : Params) (v : Int)
    (h : p.LeverageMax.i = some v) (hv : v ≤ oneInt) :
    Validate MaxPageLimit p =
      some ("leverage max must be greater than 1: " ++ decString v) := by
  unfold Validate
  simp [h, hv]

theorem validate_epochLength_nonpos (MaxPageLimit : Int) (p : Params) (lm : Int)
    (h1 : p.LeverageMax.i = some lm) (h1' : oneInt < lm) (h2 : p.EpochLength ≤ 0) :
    Validate MaxPageLimit p =
      some ("epoch length should be positive: " ++ intString p.EpochLength) := by
  unfold Validate
  simp [h1, h1', h2, not_le.mpr h1']

theorem validate_poolOpenThreshold_nil (MaxPageLimit : Int) (p : Params) (lm : Int)
    (h1 : p.LeverageMax.i = some lm) (h1' : oneInt < lm) (h2 : 0 < p.EpochLength)
    (h3 : p.PoolOpenThreshold.i = none) :
    Validate MaxPageLimit p = some "pool open threshold must be not nil" := by
  unfold Validate
  simp [h1, h1', h2, h3, not_le.mpr h1', not_le.mpr h2]

theorem validate_poolOpenThreshold_nonpos (MaxPageLimit : Int) (p : Params) (lm po : Int)
    (h1 : p.LeverageMax.i = some lm) (h1' : oneInt < lm) (h2 : 0 < p.EpochLength)
    (h3 : p.PoolOpenThreshold.i = some po) (h3' : po ≤ 0) :
    Validate MaxPageLimit p =
      some ("pool open threshold must be positive: " ++ decString po) := by
  unfold Validate
  simp [h1, h1', h2, h3, h3', not_le.mpr h1', not_le.mpr h2]

theorem validate_safetyFactor_nil (MaxPageLimit : Int) (p : Params) (lm po : Int)
    (h1 : p.LeverageMax.i = some lm) (h1' : oneInt < lm) (h2 : 0 < p.EpochLength)
    (h3 : p.PoolOpenThreshold.i = some po) (h3' : 0 < po)
    (h4 : p.SafetyFactor.i = none) :
    Validate MaxPageLimit p = some "safety factor must be not nil" := by
  unfold Validate
  simp [h1, h1', h2, h3, h3', h4, not_le.mpr h1', not_le.mpr h2, not_le.mpr h3']

theorem validate_safetyFactor_nonpos (MaxPageLimit : Int) (p : Params) (lm po sf : Int)
    (h1 : p.LeverageMax.i = some lm) (h1' : oneInt < lm) (h2 : 0 < p.EpochLength)
    (h3 : p.PoolOpenThreshold.i = some po) (h3' : 0 < po)
    (h4 : p.SafetyFactor.i = some sf) (h4' : sf ≤ 0) :
    Validate MaxPageLimit p =
      some ("safety factor must be positive: " ++ decString sf) := by
  unfold Validate
  simp [h1, h1', h2, h3, h3', h4, h4', not_le.mpr h1', not_le.mpr h2, not_le.mpr h3']

/-- The checks that precede the duplicate scan all pass. -/
theorem validate_after_bounds (MaxPageLimit : Int) (p : Params) (lm po sf : Int)
    (h1 : p.LeverageMax.i = some lm) (h1' : oneInt < lm) (h2 : 0 < p.EpochLength)
    (h3 : p.PoolOpenThreshold.i = some po) (h3' : 0 < po)
    (h4 : p.SafetyFactor.i = some sf) (h4' : 0 < sf)
    (h5 : 0 ≤ p.NumberPerBlock) (h6 : p.NumberPerBlock ≤ MaxPageLimit) :
    Validate MaxPageLimit p =
      if containsDuplicates p.EnabledPools then
        some "array must not contain duplicate values"
      else
      match p.ExitBuffer.i with
      | none => some "exit buffer must be not nil"
      | some _ =>
      match p.LiabilitiesFactor.i with
      | none => some "liabilities factor must be not nil"
      | some liabilitiesFactor =>
      if ¬ (liabilitiesFactor > 0) then
        some ("liabilities factor must be positive: " ++ decString liabilitiesFactor)
      else if liabilitiesFactor > oneInt then
        some ("liabilities factor must be less than or equal to 1: "
          ++ decString liabilitiesFactor)
      else none := by
  conv_lhs => unfold Validate
  simp [h1, h1', h2, h3, h3', h4, h4', h5, h6, not_le.mpr h1', not_le.mpr h2, not_le.mpr h3',
    not_le.mpr h4', not_lt.mpr h5, not_lt.mpr h6]

theorem validate_ne_none_of_epochLength (MaxPageLimit : Int) (p : Params)
    (h : p.EpochLength ≤ 0) : Validate MaxPageLimit p ≠ none := by
  intro hnone
  have := ((validate_eq_none_iff MaxPageLimit p).mp hnone).2.1
  omega

/-! ## LeverageMax and EpochLength -/

/-- Claim C5: for every candidate whose LeverageMax is absent or at most 1,
whatever the other fields are, `Validate` fails with one of the two leverage
max errors: the nil error when it is absent, the greater-than-1 error
carrying the value otherwise. -/
theorem Validate_leverageMax_rejected (MaxPageLimit : Int) (p : Params) :
    (p.LeverageMax.IsNil = true →
      Validate MaxPageLimit p = some "leverage max must be not nil") ∧
    (∀ v, p.LeverageMax.i = some v → v ≤ oneInt →
      Validate MaxPageLimit p =
        some ("leverage max must be greater than 1: " ++ decString v)) := by
  refine ⟨fun h => validate_leverageMax_nil MaxPageLimit p ?_,
    fun v h hv => validate_leverageMax_le MaxPageLimit p v h hv⟩
  cases hi : p.LeverageMax.i with
  | none => rfl
  | some v => simp [LegacyDec.IsNil, hi] at h

theorem Validate_leverageMax_rejected_witness :
    ({ NewParams with LeverageMax := LegacyOneDec } : Params).LeverageMax.i = some oneInt ∧
      oneInt ≤ oneInt ∧
      Validate 10000 { NewParams with LeverageMax := LegacyOneDec } =
        some "leverage max must be greater than 1: 1.000000000000000000" :=
  ⟨rfl, le_refl _,
    (Validate_leverageMax_rejected 10000 { NewParams with LeverageMax := LegacyOneDec }).2
      oneInt rfl (le_refl _)⟩

/-- Counterexample to claim C6 as stated: the default set with LeverageMax
absent and EpochLength zero has a non-positive EpochLength, yet the error is
the leverage max error and not the epoch length error. -/
theorem Validate_epochLength_counterexample :
    ({ NewParams with LeverageMax := ⟨none⟩, EpochLength := 0 } : Params).EpochLength ≤ 0 ∧
      Validate 10000 { NewParams with LeverageMax := ⟨none⟩, EpochLength := 0 } =
        some "leverage max must be not nil" ∧
      Validate 10000 { NewParams with LeverageMax := ⟨none⟩, EpochLength := 0 } ≠
        some ("epoch length should be positive: " ++ intString 0) := by
  decide

/-- Claim C6, amended: for every candidate with EpochLength at most 0,
`Validate` fails; the error is the epoch length error, carrying the value,
whenever LeverageMax is present and greater than 1. -/
theorem Validate_epochLength_rejected (MaxPageLimit : Int) (p : Params)
    (h : p.EpochLength ≤ 0) :
    Validate MaxPageLimit p ≠ none ∧
    ((∃ v, p.LeverageMax.i = some v ∧ oneInt < v) →
      Validate MaxPageLimit p =
        some ("epoch length should be positive: " ++ intString p.EpochLength)) := by
  refine ⟨validate_ne_none_of_epochLength MaxPageLimit p h, ?_⟩
  rintro ⟨v, hv, hlt⟩
  exact validate_epochLength_nonpos MaxPageLimit p v hv hlt h

theorem Validate_epochLength_rejected_witness :
    ({ NewParams with EpochLength := -3 } : Params).EpochLength ≤ 0 ∧
      Validate 10000 { NewParams with EpochLength := -3 } =
        some "epoch length should be positive: -3" :=
  ⟨by decide,
    (Validate_epochLength_rejected 10000 { NewParams with EpochLength := -3 } (by decide)).2
      ⟨10000000000000000000, by decide, by decide⟩⟩

/-! ## PoolOpenThreshold, SafetyFactor and LiabilitiesFactor -/

theorem validate_ne_none_of_poolOpenThreshold (MaxPageLimit : Int) (p : Params)
    (h : p.PoolOpenThreshold.i = none ∨ ∃ v, p.PoolOpenThreshold.i = some v ∧ v ≤ 0) :
    Validate MaxPageLimit p ≠ none := by
  intro hnone
  obtain ⟨w, hw, hpos⟩ := ((validate_eq_none_iff MaxPageLimit p).mp hnone).2.2.1
  rcases h with h | ⟨v, hv, hle⟩
  · simp [h] at hw
  · rw [hw] at hv
    cases hv
    omega

theorem validate_ne_none_of_safetyFactor (MaxPageLimit : Int) (p : Params)
    (h : p.SafetyFactor.i = none ∨ ∃ v, p.SafetyFactor.i = some v ∧ v ≤ 0) :
    Validate MaxPageLimit p ≠ none := by
  intro hnone
  obtain ⟨w, hw, hpos⟩ := ((validate_eq_none_iff MaxPageLimit p).mp hnone).2.2.2.1
  rcases h with h | ⟨v, hv, hle⟩
  · simp [h] at hw
  · rw [hw] at hv
    cases hv
    omega

theorem validate_ne_none_of_liabilitiesFactor (MaxPageLimit : Int) (p : Params)
    (h : p.LiabilitiesFactor.i = none ∨
      ∃ v, p.LiabilitiesFactor.i = some v ∧ (v ≤ 0 ∨ oneInt < v)) :
    Validate MaxPageLimit p ≠ none := by
  intro hnone
  obtain ⟨w, hw, hpos, hle1⟩ := ((validate_eq_none_iff MaxPageLimit p).mp hnone).2.2.2.2.2.2.2
  rcases h with h | ⟨v, hv, hle⟩
  · simp [h] at hw
  · rw [hw] at hv
    cases hv
    omega

theorem validate_liabilitiesFactor_nil (MaxPageLimit : Int) (p : Params) (lm po sf : Int)
    (h1 : p.LeverageMax.i = some lm) (h1' : oneInt < lm) (h2 : 0 < p.EpochLength)
    (h3 : p.PoolOpenThreshold.i = some po) (h3' : 0 < po)
    (h4 : p.SafetyFactor.i = some sf) (h4' : 0 < sf)
    (h5 : 0 ≤ p.NumberPerBlock) (h6 : p.NumberPerBlock ≤ MaxPageLimit)
    (h7 : p.EnabledPools.Nodup) (h8 : p.ExitBuffer.i ≠ none)
    (h9 : p.LiabilitiesFactor.i = none) :
    Validate MaxPageLimit p = some "liabilities factor must be not nil" := by
  rw [validate_after_bounds MaxPageLimit p lm po sf h1 h1' h2 h3 h3' h4 h4' h5 h6,
    (containsDuplicates_eq_false_iff _).mpr h7]
  cases heb : p.ExitBuffer.i with
  | none => exact absurd heb h8
  | some eb => simp [h9]

theorem validate_liabilitiesFactor_nonpos (MaxPageLimit : Int) (p : Params) (lm po sf v : Int)
    (h1 : p.LeverageMax.i = some lm) (h1' : oneInt < lm) (h2 : 0 < p.EpochLength)
    (h3 : p.PoolOpenThreshold.i = some po) (h3' : 0 < po)
    (h4 : p.SafetyFactor.i = some sf) (h4' : 0 < sf)
    (h5 : 0 ≤ p.NumberPerBlock) (h6 : p.NumberPerBlock ≤ MaxPageLimit)
    (h7 : p.EnabledPools.Nodup) (h8 : p.ExitBuffer.i ≠ none)
    (h9 : p.LiabilitiesFactor.i = some v) (h9' : v ≤ 0) :
    Validate MaxPageLimit p =
      some ("liabilities factor must be positive: " ++ decString v) := by
  rw [validate_after_bounds MaxPageLimit p lm po sf h1 h1' h2 h3 h3' h4 h4' h5 h6,
    (containsDuplicates_eq_false_iff _).mpr h7]
  cases heb : p.ExitBuffer.i with
  | none => exact absurd heb h8
  | some eb => simp [h9, h9']

theorem validate_liabilitiesFactor_gt_one (MaxPageLimit : Int) (p : Params) (lm po sf v : Int)
    (h1 : p.LeverageMax.i = some lm) (h1' : oneInt < lm) (h2 : 0 < p.EpochLength)
    (h3 : p.PoolOpenThreshold.i = some po) (h3' : 0 < po)
    (h4 : p.SafetyFactor.i = some sf) (h4' : 0 < sf)
    (h5 : 0 ≤ p.NumberPerBlock) (h6 : p.NumberPerBlock ≤ MaxPageLimit)
    (h7 : p.EnabledPools.Nodup) (h8 : p.ExitBuffer.i ≠ none)
    (h9 : p.LiabilitiesFactor.i = some v) (h9' : oneInt < v) :
    Validate MaxPageLimit p =
      some ("liabilities factor must be less than or equal to 1: " ++ decString v) := by
  have hpos : 0 < v := lt_trans (by decide) h9'
  rw [validate_after_bounds MaxPageLimit p lm po sf h1 h1' h2 h3 h3' h4 h4' h5 h6,
    (containsDuplicates_eq_false_iff _).mpr h7]
  cases heb : p.ExitBuffer.i with
  | none => exact absurd heb h8
  | some eb => simp [h9, h9', hpos, not_le.mpr hpos]

/-- Counterexample to claim C7 as stated: the default set with LeverageMax,
PoolOpenThreshold, SafetyFactor and LiabilitiesFactor all absent has each of
the three fields absent, yet the error is the leverage max error and names
none of them. -/
theorem Validate_positive_decimals_counterexample :
    nilDecimalsCandidate.PoolOpenThreshold.IsNil = true ∧
      nilDecimalsCandidate.SafetyFactor.IsNil = true ∧
      nilDecimalsCandidate.LiabilitiesFactor.IsNil = true ∧
      Validate 10000 nilDecimalsCandidate = some "leverage max must be not nil" ∧
      Validate 10000 nilDecimalsCandidate ≠ some "pool open threshold must be not nil" ∧
      Validate 10000 nilDecimalsCandidate ≠ some "safety factor must be not nil" ∧
      Validate 10000 nilDecimalsCandidate ≠ some "liabilities factor must be not nil" := by
  decide

/-- Claim C7, amended: for every candidate in which PoolOpenThreshold,
SafetyFactor or LiabilitiesFactor is absent or at most 0, `Validate` fails;
the error names that field (its nil error when absent, its positivity error
carrying the value otherwise) whenever every check placed before that field
passes: LeverageMax and EpochLength for PoolOpenThreshold; those and
PoolOpenThreshold for SafetyFactor; those, SafetyFactor, NumberPerBlock,
EnabledPools and ExitBuffer for LiabilitiesFactor. -/
theorem Validate_positive_decimals_rejected (MaxPageLimit : Int) (p : Params) :
    ((p.PoolOpenThreshold.i = none ∨ ∃ v, p.PoolOpenThreshold.i = some v ∧ v ≤ 0) →
      Validate MaxPageLimit p ≠ none) ∧
    ((p.SafetyFactor.i = none ∨ ∃ v, p.SafetyFactor.i = some v ∧ v ≤ 0) →
      Validate MaxPageLimit p ≠ none) ∧
    ((p.LiabilitiesFactor.i = none ∨ ∃ v, p.LiabilitiesFactor.i = some v ∧ v ≤ 0) →
      Validate MaxPageLimit p ≠ none) ∧
    ((∃ lm, p.LeverageMax.i = some lm ∧ oneInt < lm) → 0 < p.EpochLength →
      (p.PoolOpenThreshold.i = none →
        Validate MaxPageLimit p = some "pool open threshold must be not nil") ∧
      (∀ v, p.PoolOpenThreshold.i = some v → v ≤ 0 →
        Validate MaxPageLimit p =
          some ("pool open threshold must be positive: " ++ decString v)) ∧
      ((∃ po, p.PoolOpenThreshold.i = some po ∧ 0 < po) →
        (p.SafetyFactor.i = none →
          Validate MaxPageLimit p = some "safety factor must be not nil") ∧
        (∀ v, p.SafetyFactor.i = some v → v ≤ 0 →
          Validate MaxPageLimit p =
            some ("safety factor must be positive: " ++ decString v)) ∧
        ((∃ sf, p.SafetyFactor.i = some sf ∧ 0 < sf) →
          0 ≤ p.NumberPerBlock → p.NumberPerBlock ≤ MaxPageLimit →
          p.EnabledPools.Nodup → p.ExitBuffer.i ≠ none →
          (p.LiabilitiesFactor.i = none →
            Validate MaxPageLimit p = some "liabilities factor must be not nil") ∧
          (∀ v, p.LiabilitiesFactor.i = some v → v ≤ 0 →
            Validate MaxPageLimit p =
              some ("liabilities factor must be positive: " ++ decString v))))) := by
  refine ⟨validate_ne_none_of_poolOpenThreshold MaxPageLimit p,
    validate_ne_none_of_safetyFactor MaxPageLimit p, ?_, ?_⟩
  · rintro (h | ⟨v, hv, hle⟩)
    · exact validate_ne_none_of_liabilitiesFactor MaxPageLimit p (Or.inl h)
    · exact validate_ne_none_of_liabilitiesFactor MaxPageLimit p (Or.inr ⟨v, hv, Or.inl hle⟩)
  · rintro ⟨lm, h1, h1'⟩ h2
    refine ⟨validate_poolOpenThreshold_nil MaxPageLimit p lm h1 h1' h2,
      fun v => validate_poolOpenThreshold_nonpos MaxPageLimit p lm v h1 h1' h2, ?_⟩
    rintro ⟨po, h3, h3'⟩
    refine ⟨validate_safetyFactor_nil MaxPageLimit p lm po h1 h1' h2 h3 h3',
      fun v => validate_safetyFactor_nonpos MaxPageLimit p lm po v h1 h1' h2 h3 h3', ?_⟩
    rintro ⟨sf, h4, h4'⟩ h5 h6 h7 h8
    exact ⟨validate_liabilitiesFactor_nil MaxPageLimit p lm po sf h1 h1' h2 h3 h3' h4 h4' h5 h6
        h7 h8,
      fun v => validate_liabilitiesFactor_nonpos MaxPageLimit p lm po sf v h1 h1' h2 h3 h3' h4
        h4' h5 h6 h7 h8⟩

theorem Validate_positive_decimals_rejected_witness :
    Validate 10000 { NewParams with PoolOpenThreshold := ⟨some 0⟩ } =
        some "pool open threshold must be positive: 0.000000000000000000" ∧
      Validate 10000 { NewParams with SafetyFactor := ⟨none⟩ } =
        some "safety factor must be not nil" ∧
      Validate 10000 { NewParams with LiabilitiesFactor := ⟨some 0⟩ } =
        some "liabilities factor must be positive: 0.000000000000000000" :=
  ⟨((Validate_positive_decimals_rejected 10000
        { NewParams with PoolOpenThreshold := ⟨some 0⟩ }).2.2.2
        ⟨10000000000000000000, by decide, by decide⟩ (by decide)).2.1 0 rfl (le_refl _),
    (((Validate_positive_decimals_rejected 10000
        { NewParams with SafetyFactor := ⟨none⟩ }).2.2.2
        ⟨10000000000000000000, by decide, by decide⟩ (by decide)).2.2
        ⟨200000000000000000, by decide, by decide⟩).1 rfl,
    ((((Validate_positive_decimals_rejected 10000
        { NewParams with LiabilitiesFactor := ⟨some 0⟩ }).2.2.2
        ⟨10000000000000000000, by decide, by decide⟩ (by decide)).2.2
        ⟨200000000000000000, by decide, by decide⟩).2.2
        ⟨1100000000000000000, by decide, by decide⟩ (by decide) (by decide) (by decide)
        (by decide)).2 0 rfl (le_refl _)⟩

/-! ## EnabledPools -/

theorem not_nodup_of_repeat (l : List Nat)
    (h : ∃ i j : Nat, i < j ∧ j < l.length ∧ l[i]? = l[j]?) : ¬ l.Nodup := by
  obtain ⟨i, j, hij, hj, heq⟩ := h
  intro hnd
  exact List.nodup_iff_getElem?_ne_getElem?.mp hnd i j hij hj heq

theorem validate_ne_none_of_not_nodup (MaxPageLimit : Int) (p : Params)
    (h : ¬ p.EnabledPools.Nodup) : Validate MaxPageLimit p ≠ none := fun hnone =>
  h ((validate_eq_none_iff MaxPageLimit p).mp hnone).2.2.2.2.2.1

theorem validate_duplicates (MaxPageLimit : Int) (p : Params) (lm po sf : Int)
    (h1 : p.LeverageMax.i = some lm) (h1' : oneInt < lm) (h2 : 0 < p.EpochLength)
    (h3 : p.PoolOpenThreshold.i = some po) (h3' : 0 < po)
    (h4 : p.SafetyFactor.i = some sf) (h4' : 0 < sf)
    (h5 : 0 ≤ p.NumberPerBlock) (h6 : p.NumberPerBlock ≤ MaxPageLimit)
    (h7 : ¬ p.EnabledPools.Nodup) :
    Validate MaxPageLimit p = some "array must not contain duplicate values" := by
  rw [validate_after_bounds MaxPageLimit p lm po sf h1 h1' h2 h3 h3' h4 h4' h5 h6,
    (containsDuplicates_eq_true_iff _).mpr h7]
  rfl

/-- Counterexample to claim C8 as stated: the default set with EpochLength
zero and EnabledPools `[1, 1]` repeats an identifier, yet the error is the
epoch length error and not the duplicate-value error. -/
theorem Validate_duplicates_counterexample :
    ¬ ({ NewParams with EpochLength := 0, EnabledPools := [1, 1] } : Params).EnabledPools.Nodup ∧
      Validate 10000 { NewParams with EpochLength := 0, EnabledPools := [1, 1] } =
        some "epoch length should be positive: 0" ∧
      Validate 10000 { NewParams with EpochLength := 0, EnabledPools := [1, 1] } ≠
        some "array must not contain duplicate values" := by
  decide

/-- Claim C8, amended: for every candidate whose EnabledPools holds the same
identifier at two positions, `Validate` fails; the error is the
duplicate-value error whenever the checks placed before the duplicate scan
pass (LeverageMax, EpochLength, PoolOpenThreshold, SafetyFactor and
NumberPerBlock), whatever ExitBuffer and LiabilitiesFactor are. -/
theorem Validate_duplicates_rejected (MaxPageLimit : Int) (p : Params)
    (h : ∃ i j : Nat, i < j ∧ j < p.EnabledPools.length ∧
      p.EnabledPools[i]? = p.EnabledPools[j]?) :
    Validate MaxPageLimit p ≠ none ∧
    ((∃ lm, p.LeverageMax.i = some lm ∧ oneInt < lm) → 0 < p.EpochLength →
      (∃ po, p.PoolOpenThreshold.i = some po ∧ 0 < po) →
      (∃ sf, p.SafetyFactor.i = some sf ∧ 0 < sf) →
      0 ≤ p.NumberPerBlock → p.NumberPerBlock ≤ MaxPageLimit →
      Validate MaxPageLimit p = some "array must not contain duplicate values") := by
  have hnd : ¬ p.EnabledPools.Nodup := not_nodup_of_repeat _ h
  refine ⟨validate_ne_none_of_not_nodup MaxPageLimit p hnd, ?_⟩
  rintro ⟨lm, h1, h1'⟩ h2 ⟨po, h3, h3'⟩ ⟨sf, h4, h4'⟩ h5 h6
  exact validate_duplicates MaxPageLimit p lm po sf h1 h1' h2 h3 h3' h4 h4' h5 h6 hnd

theorem Validate_duplicates_rejected_witness :
    Validate 10000 { NewParams with EnabledPools := [4, 9, 9, 4, 9], ExitBuffer := ⟨none⟩ } =
      some "array must not contain duplicate values" :=
  (Validate_duplicates_rejected 10000
    { NewParams with EnabledPools := [4, 9, 9, 4, 9], ExitBuffer := ⟨none⟩ }
    ⟨0, 3, by decide, by decide, by decide⟩).2
    ⟨10000000000000000000, by decide, by decide⟩ (by decide)
    ⟨200000000000000000, by decide, by decide⟩
    ⟨1100000000000000000, by decide, by decide⟩ (by decide) (by decide)

theorem newParams_bounds :
    NewParams.LeverageMax.i = some 10000000000000000000 ∧
      0 < NewParams.EpochLength ∧
      NewParams.PoolOpenThreshold.i = some 200000000000000000 ∧
      NewParams.SafetyFactor.i = some 1100000000000000000 ∧
      0 ≤ NewParams.NumberPerBlock := by
  decide

theorem validate_newParams_with_pools (MaxPageLimit : Int) (l : List Nat)
    (hlimit : 1000 ≤ MaxPageLimit) :
    Validate MaxPageLimit { NewParams with EnabledPools := l } =
      if containsDuplicates l then some "array must not contain duplicate values" else none := by
  exact validate_after_bounds MaxPageLimit { NewParams with EnabledPools := l } 10000000000000000000
    200000000000000000 1100000000000000000 newParams_bounds.1 (by decide) newParams_bounds.2.1
    newParams_bounds.2.2.1 (by decide) newParams_bounds.2.2.2.1 (by decide)
    newParams_bounds.2.2.2.2 hlimit

/-- Claim C9: for every list of pool identifiers, the default set with
EnabledPools replaced by the list validates exactly when the list has no
repeated identifier, and when it fails the error is the duplicate-value
error; the page-size constant is at least the default NumberPerBlock. -/
theorem Validate_default_with_pools (MaxPageLimit : Int) (l : List Nat)
    (hlimit : 1000 ≤ MaxPageLimit) :
    (Validate MaxPageLimit { NewParams with EnabledPools := l } = none ↔ l.Nodup) ∧
    (Validate MaxPageLimit { NewParams with EnabledPools := l } ≠ none →
      Validate MaxPageLimit { NewParams with EnabledPools := l } =
        some "array must not contain duplicate values") := by
  rw [validate_newParams_with_pools MaxPageLimit l hlimit, ← containsDuplicates_eq_false_iff]
  cases containsDuplicates l <;> simp

theorem Validate_default_with_pools_witness :
    (1000 : Int) ≤ 10000 ∧
      Validate 10000 { NewParams with EnabledPools := [1, 2, 3] } = none ∧
      Validate 10000 { NewParams with EnabledPools := [1, 2, 1] } =
        some "array must not contain duplicate values" :=
  ⟨by decide,
    (Validate_default_with_pools 10000 [1, 2, 3] (by decide)).1.mpr (by decide),
    (Validate_default_with_pools 10000 [1, 2, 1] (by decide)).2 (by decide)⟩

/-! ## The upper bound of LiabilitiesFactor -/

theorem validate_newParams_with_liabilities (MaxPageLimit : Int) (v : Int)
    (hlimit : 1000 ≤ MaxPageLimit) :
    Validate MaxPageLimit { NewParams with LiabilitiesFactor := ⟨some v⟩ } =
      if ¬ (v > 0) then some ("liabilities factor must be positive: " ++ decString v)
      else if v > oneInt then
        some ("liabilities factor must be less than or equal to 1: " ++ decString v)
      else none := by
  exact validate_after_bounds MaxPageLimit { NewParams with LiabilitiesFactor := ⟨some v⟩ } 10000000000000000000
    200000000000000000 1100000000000000000 newParams_bounds.1 (by decide) newParams_bounds.2.1
    newParams_bounds.2.2.1 (by decide) newParams_bounds.2.2.2.1 (by decide)
    newParams_bounds.2.2.2.2 hlimit

/-- Claim C10: the upper bound 1 of LiabilitiesFactor is inclusive.  Every
candidate whose LiabilitiesFactor exceeds 1 fails validation; for every
present decimal, the default set with LiabilitiesFactor replaced by it
validates exactly when the decimal is positive and at most 1, and a decimal
above 1 yields the less-than-or-equal-to-1 error carrying the value; the
page-size constant is at least the default NumberPerBlock. -/
theorem Validate_liabilitiesFactor_bound (MaxPageLimit : Int) :
    (∀ (p : Params) (v : Int), p.LiabilitiesFactor.i = some v → oneInt < v →
      Validate MaxPageLimit p ≠ none) ∧
    (1000 ≤ MaxPageLimit → ∀ v : Int,
      (Validate MaxPageLimit { NewParams with LiabilitiesFactor := ⟨some v⟩ } = none ↔
        0 < v ∧ v ≤ oneInt) ∧
      (oneInt < v →
        Validate MaxPageLimit { NewParams with LiabilitiesFactor := ⟨some v⟩ } =
          some ("liabilities factor must be less than or equal to 1: " ++ decString v))) := by
  refine ⟨fun p v hv hlt =>
    validate_ne_none_of_liabilitiesFactor MaxPageLimit p (Or.inr ⟨v, hv, Or.inr hlt⟩), ?_⟩
  intro hlimit v
  rw [validate_newParams_with_liabilities MaxPageLimit v hlimit]
  have h1 : (0 : Int) < oneInt := by decide
  by_cases hpos : v > 0
  · by_cases hgt : v > oneInt
    · simp [hpos, hgt]
    · simp [hpos, hgt]
      omega
  · simp [hpos]
    omega

theorem Validate_liabilitiesFactor_bound_witness :
    (1000 : Int) ≤ 10000 ∧
      Validate 10000 { NewParams with LiabilitiesFactor := ⟨some 1000000000000000000⟩ } = none ∧
      Validate 10000 { NewParams with LiabilitiesFactor := ⟨some 1000000100000000000⟩ } =
        some "liabilities factor must be less than or equal to 1: 1.000000100000000000" ∧
      Validate 10000 { NewParams with LiabilitiesFactor := ⟨some 1000000100000000000⟩,
                                      EpochLength := 0 } ≠ none :=
  ⟨by decide,
    ((Validate_liabilitiesFactor_bound 10000).2 (by decide) 1000000000000000000).1.mpr
      (by decide),
    ((Validate_liabilitiesFactor_bound 10000).2 (by decide) 1000000100000000000).2 (by decide),
    (Validate_liabilitiesFactor_bound 10000).1 _ 1000000100000000000 rfl (by decide)⟩

/-! ## NumberPerBlock and the page-size ceiling -/

theorem validate_ne_none_of_numberPerBlock (MaxPageLimit : Int) (p : Params)
    (h : p.NumberPerBlock < 0 ∨ MaxPageLimit < p.NumberPerBlock) :
    Validate MaxPageLimit p ≠ none := by
  intro hnone
  have := ((validate_eq_none_iff MaxPageLimit p).mp hnone).2.2.2.2.1
  omega

theorem validate_newParams_with_numberPerBlock (MaxPageLimit : Int) (n : Int) :
    Validate MaxPageLimit { NewParams with NumberPerBlock := n } =
      if n < 0 then
        some ("number of positions per block must be positive: " ++ intString n)
      else if n > MaxPageLimit then
        some ("number of positions per block should not exceed page limit: "
          ++ intString MaxPageLimit ++ ", number of positions: " ++ intString n)
      else none := by
  have h : Validate MaxPageLimit { NewParams with NumberPerBlock := n } =
      Validate MaxPageLimit
        { LeverageMax := ⟨some 10000000000000000000⟩
          EpochLength := 1
          MaxOpenPositions := 9999
          PoolOpenThreshold := ⟨some 200000000000000000⟩
          SafetyFactor := ⟨some 1100000000000000000⟩
          WhitelistingEnabled := false
          FallbackEnabled := true
          NumberPerBlock := n
          EnabledPools := []
          ExitBuffer := ⟨some 50000000000000000⟩
          StopLossEnabled := true
          LiabilitiesFactor := ⟨some 1000000000000000000⟩ } := by
    rw [newParams_fields]
  rw [h]
  unfold Validate
  have h1 : ¬ ((10000000000000000000 : Int) ≤ oneInt) := by decide
  have h2 : ¬ ((1000000000000000000 : Int) > oneInt) := by decide
  have h3 : containsDuplicates [] = false := rfl
  simp [h1, h2, h3]

/-- Claim C11: for every page-size ceiling, every candidate whose
NumberPerBlock is negative or greater than the ceiling fails validation; for
the default set with only NumberPerBlock changed to such a value the error
names NumberPerBlock: the must-be-positive error for a negative value, the
page-limit error carrying the ceiling and the value otherwise. -/
theorem Validate_numberPerBlock_rejected (MaxPageLimit : Int) :
    (∀ p : Params, p.NumberPerBlock < 0 ∨ MaxPageLimit < p.NumberPerBlock →
      Validate MaxPageLimit p ≠ none) ∧
    (∀ n : Int, n < 0 →
      Validate MaxPageLimit { NewParams with NumberPerBlock := n } =
        some ("number of positions per block must be positive: " ++ intString n)) ∧
    (∀ n : Int, 0 ≤ n → MaxPageLimit < n →
      Validate MaxPageLimit { NewParams with NumberPerBlock := n } =
        some ("number of positions per block should not exceed page limit: "
          ++ intString MaxPageLimit ++ ", number of positions: " ++ intString n)) := by
  refine ⟨validate_ne_none_of_numberPerBlock MaxPageLimit, ?_, ?_⟩
  · intro n hn
    rw [validate_newParams_with_numberPerBlock, if_pos hn]
  · intro n hn hlt
    rw [validate_newParams_with_numberPerBlock, if_neg (not_lt.mpr hn), if_pos hlt]

theorem Validate_numberPerBlock_rejected_witness :
    (0 : Int) ≤ 10000 ∧ (9999 : Int) < 10000 ∧
      Validate 9999 { NewParams with NumberPerBlock := 10000 } =
        some ("number of positions per block should not exceed page limit: 9999, " ++
          "number of positions: 10000") ∧
      Validate 9999 { NewParams with NumberPerBlock := 10000, EpochLength := 0 } ≠ none :=
  ⟨by decide, by decide,
    (Validate_numberPerBlock_rejected 9999).2.2 10000 (by decide) (by decide),
    (Validate_numberPerBlock_rejected 9999).1 _ (Or.inr (by decide))⟩

/-- Claim C20: with the page-size ceiling a parameter, the defaults validate
exactly when the ceiling is at least 1000, the default NumberPerBlock; below
that they are rejected with the page-limit error, and every other check of
the sequence passes on the defaults. -/
theorem Validate_defaults_iff_ceiling (MaxPageLimit : Int) :
    (Validate MaxPageLimit NewParams = none ↔ 1000 ≤ MaxPageLimit) ∧
    (MaxPageLimit < 1000 →
      Validate MaxPageLimit NewParams =
        some ("number of positions per block should not exceed page limit: "
          ++ intString MaxPageLimit ++ ", number of positions: " ++ intString 1000)) ∧
    (∀ c ∈ (checkSequence MaxPageLimit).eraseIdx 8, c NewParams = none) := by
  have h := validate_newParams_with_numberPerBlock MaxPageLimit 1000
  have hrec : ({ NewParams with NumberPerBlock := 1000 } : Params) = NewParams := rfl
  rw [hrec] at h
  refine ⟨?_, ?_, ?_⟩
  · rw [h]
    by_cases hlt : (1000 : Int) > MaxPageLimit
    · simp [hlt]
    · simp [hlt]
      omega
  · intro hlt
    rw [h, if_neg (by decide), if_pos hlt]
  · intro c hc
    simp only [checkSequence, List.eraseIdx, List.mem_cons, List.mem_singleton,
      List.not_mem_nil, or_false] at hc
    rcases hc with rfl | rfl | rfl | rfl | rfl | rfl | rfl | rfl | rfl | rfl | rfl | rfl | rfl <;>
      decide

theorem Validate_defaults_iff_ceiling_witness :
    (999 : Int) < 1000 ∧
      Validate 999 NewParams =
        some ("number of positions per block should not exceed page limit: 999, " ++
          "number of positions: 1000") ∧
      Validate 1000 NewParams = none :=
  ⟨by decide, (Validate_defaults_iff_ceiling 999).2.1 (by decide),
    (Validate_defaults_iff_ceiling 1000).1.mpr (by decide)⟩

/-! ## Fields the validator does not constrain -/

/-- Claim C15: the outcome of `Validate` does not depend on MaxOpenPositions,
WhitelistingEnabled, FallbackEnabled or StopLossEnabled: replacing any of
them in any candidate by any values leaves the result unchanged, success or
the same error; in particular no value of MaxOpenPositions, zero and
negative ones included, turns the validated defaults into a rejection. -/
theorem Validate_ignores_unconstrained (MaxPageLimit : Int) (p : Params)
    (maxOpenPositions : Int) (whitelisting fallback stopLoss : Bool) :
    Validate MaxPageLimit
        { p with
          MaxOpenPositions := maxOpenPositions
          WhitelistingEnabled := whitelisting
          FallbackEnabled := fallback
          StopLossEnabled := stopLoss } =
      Validate MaxPageLimit p ∧
    Validate MaxPageLimit { NewParams with MaxOpenPositions := maxOpenPositions } =
      Validate MaxPageLimit NewParams :=
  ⟨rfl, rfl⟩

theorem validate_congr_pools (MaxPageLimit : Int) (p : Params) (l l' : List Nat)
    (h : containsDuplicates l = containsDuplicates l') :
    Validate MaxPageLimit { p with EnabledPools := l } =
      Validate MaxPageLimit { p with EnabledPools := l' } := by
  unfold Validate
  simp only [h]

theorem validate_congr_exitBuffer (MaxPageLimit : Int) (p : Params) (a b : Int) :
    Validate MaxPageLimit { p with ExitBuffer := ⟨some a⟩ } =
      Validate MaxPageLimit { p with ExitBuffer := ⟨some b⟩ } := by
  unfold Validate
  rfl

/-! ## Correctness of the duplicate scan -/

theorem not_nodup_iff_repeat (l : List Nat) :
    ¬ l.Nodup ↔ ∃ i j : Nat, i < j ∧ j < l.length ∧ l[i]? = l[j]? := by
  rw [List.nodup_iff_getElem?_ne_getElem?]
  push_neg
  rfl

/-- Claim C17: `containsDuplicates` is a correct duplicate test: it returns
true exactly when two positions `i < j` of the list hold the same value, that
is exactly when the list is not duplicate-free; it returns false on the empty
list and on every single-element list. -/
theorem containsDuplicates_correct (arr : List Nat) :
    (containsDuplicates arr = true ↔
      ∃ i j : Nat, i < j ∧ j < arr.length ∧ ∃ x, arr[i]? = some x ∧ arr[j]? = some x) ∧
    (containsDuplicates arr = true ↔ ¬ arr.Nodup) ∧
    containsDuplicates [] = false ∧
    (∀ x : Nat, containsDuplicates [x] = false) := by
  refine ⟨?_, containsDuplicates_eq_true_iff arr, rfl, fun x => ?_⟩
  · rw [containsDuplicates_eq_true_iff, not_nodup_iff_repeat]
    constructor
    · rintro ⟨i, j, hij, hj, heq⟩
      refine ⟨i, j, hij, hj, arr[j], ?_, ?_⟩
      · rw [heq]
        exact List.getElem?_eq_getElem hj
      · exact List.getElem?_eq_getElem hj
    · rintro ⟨i, j, hij, hj, x, hi, hjx⟩
      exact ⟨i, j, hij, hj, hi.trans hjx.symm⟩
  · rw [containsDuplicates_eq_false_iff]
    exact List.nodup_singleton x

/-- Claim C18: the duplicate scan is order-independent: a permutation of a
list gets the same answer from `containsDuplicates`, and so two candidates
that differ only in the order of EnabledPools get the same outcome from
`Validate`. -/
theorem containsDuplicates_perm (arr arr' : List Nat) (hperm : arr'.Perm arr) :
    containsDuplicates arr' = containsDuplicates arr ∧
    ∀ (MaxPageLimit : Int) (p : Params),
      Validate MaxPageLimit { p with EnabledPools := arr' } =
        Validate MaxPageLimit { p with EnabledPools := arr } := by
  have h : containsDuplicates arr' = containsDuplicates arr := by
    rw [Bool.eq_iff_iff, containsDuplicates_eq_true_iff, containsDuplicates_eq_true_iff,
      hperm.nodup_iff]
  exact ⟨h, fun MaxPageLimit p => validate_congr_pools MaxPageLimit p arr' arr h⟩

theorem containsDuplicates_perm_witness :
    List.Perm [3, 1, 2, 1] [1, 1, 2, 3] ∧
      containsDuplicates [3, 1, 2, 1] = containsDuplicates [1, 1, 2, 3] ∧
      Validate 10000 { NewParams with EnabledPools := [3, 1, 2, 1] } =
        Validate 10000 { NewParams with EnabledPools := [1, 1, 2, 3] } :=
  ⟨by decide,
    (containsDuplicates_perm [1, 1, 2, 3] [3, 1, 2, 1] (by decide)).1,
    (containsDuplicates_perm [1, 1, 2, 3] [3, 1, 2, 1] (by decide)).2 10000 NewParams⟩

/-! ## ExitBuffer -/

theorem validate_newParams_exitBuffer_nil (MaxPageLimit : Int)
    (hlimit : 1000 ≤ MaxPageLimit) :
    Validate MaxPageLimit { NewParams with ExitBuffer := ⟨none⟩ } =
      some "exit buffer must be not nil" :=
  validate_after_bounds MaxPageLimit { NewParams with ExitBuffer := ⟨none⟩ }
    10000000000000000000 200000000000000000 1100000000000000000 newParams_bounds.1
    (by decide) newParams_bounds.2.1 newParams_bounds.2.2.1 (by decide)
    newParams_bounds.2.2.2.1 (by decide) newParams_bounds.2.2.2.2 hlimit

/-- Claim C19: ExitBuffer is constrained only to be present: two candidates
that differ only in ExitBuffer, both values present, get the same result from
`Validate`; so the default set with ExitBuffer replaced by any present value
(zero, negative or above 1 included) validates exactly as the default set
does, whereas with ExitBuffer absent it fails with the exit buffer nil error,
the page-size constant being at least the default NumberPerBlock. -/
theorem Validate_exitBuffer_presence (MaxPageLimit : Int) :
    (∀ (p : Params) (a b : Int),
      Validate MaxPageLimit { p with ExitBuffer := ⟨some a⟩ } =
        Validate MaxPageLimit { p with ExitBuffer := ⟨some b⟩ }) ∧
    (∀ a : Int,
      Validate MaxPageLimit { NewParams with ExitBuffer := ⟨some a⟩ } =
        Validate MaxPageLimit NewParams) ∧
    (1000 ≤ MaxPageLimit →
      Validate MaxPageLimit { NewParams with ExitBuffer := ⟨none⟩ } =
        some "exit buffer must be not nil") := by
  refine ⟨validate_congr_exitBuffer MaxPageLimit, fun a => ?_,
    validate_newParams_exitBuffer_nil MaxPageLimit⟩
  have h := validate_congr_exitBuffer MaxPageLimit NewParams a 50000000000000000
  have hrec : ({ NewParams with ExitBuffer := ⟨some 50000000000000000⟩ } : Params) =
      NewParams := by decide
  rw [hrec] at h
  exact h

theorem Validate_exitBuffer_presence_witness :
    (1000 : Int) ≤ 10000 ∧
      Validate 10000 { NewParams with ExitBuffer := ⟨none⟩ } =
        some "exit buffer must be not nil" ∧
      Validate 10000 { NewParams with ExitBuffer := ⟨some 0⟩ } = none ∧
      Validate 10000 { NewParams with ExitBuffer := ⟨some (-50000000000000000)⟩ } = none ∧
      Validate 10000 { NewParams with ExitBuffer := ⟨some 2000000000000000000⟩ } = none :=
  ⟨by decide, (Validate_exitBuffer_presence 10000).2.2 (by decide),
    ((Validate_exitBuffer_presence 10000).2.1 0).trans (by decide),
    ((Validate_exitBuffer_presence 10000).2.1 (-50000000000000000)).trans (by decide),
    ((Validate_exitBuffer_presence 10000).2.1 2000000000000000000).trans (by decide)⟩

/-! ## The decimal adapter -/

theorem bigDecFromDec_some (d : LegacyDec) (v : Int) (h : d.i = some v) :
    ∃ b, BigDecFromDec d = some b ∧ b.i = v * 10 ^ 18 ∧
      some b.toRat = d.toRat ∧ b.Dec = d := by
  refine ⟨⟨v * 10 ^ 18⟩, ?_, rfl, ?_, ?_⟩
  · simp [BigDecFromDec, h, BigDecPrecision, LegacyPrecision]
  · have hd : d.toRat = some ((v : ℚ) / 10 ^ 18) := by
      simp [LegacyDec.toRat, h, LegacyPrecision]
    rw [hd]
    congr 1
    simp only [BigDec.toRat, BigDecPrecision]
    push_cast
    rw [div_eq_div_iff (by positivity) (by positivity)]
    ring
  · cases d with
    | mk i =>
      simp only at h
      subst h
      simp only [BigDec.Dec, BigDecPrecision, LegacyPrecision]
      rw [show (36 - 18 : Nat) = 18 from rfl, Int.mul_tdiv_cancel v (by norm_num)]

/-- Claim C13: the decimal adapter is lossless.  For every parameter record
whose SafetyFactor is present, `GetBigDecSafetyFactor` returns the underlying
integer multiplied by `10 ^ 18`, which denotes the same rational number at 36
decimals, and converting back to standard precision gives the original
decimal; likewise `GetBigDecPoolOpenThreshold` and `GetBigDecExitBuffer` for
their fields.  Each getter reads its own field only: two records that agree
on that field get the same result. -/
theorem GetBigDec_lossless (p : Params) :
    (∀ v, p.SafetyFactor.i = some v →
      ∃ b, GetBigDecSafetyFactor p = some b ∧ b.i = v * 10 ^ 18 ∧
        some b.toRat = p.SafetyFactor.toRat ∧ b.Dec = p.SafetyFactor) ∧
    (∀ v, p.PoolOpenThreshold.i = some v →
      ∃ b, GetBigDecPoolOpenThreshold p = some b ∧ b.i = v * 10 ^ 18 ∧
        some b.toRat = p.PoolOpenThreshold.toRat ∧ b.Dec = p.PoolOpenThreshold) ∧
    (∀ v, p.ExitBuffer.i = some v →
      ∃ b, GetBigDecExitBuffer p = some b ∧ b.i = v * 10 ^ 18 ∧
        some b.toRat = p.ExitBuffer.toRat ∧ b.Dec = p.ExitBuffer) ∧
    (∀ q : Params, q.SafetyFactor = p.SafetyFactor →
      GetBigDecSafetyFactor q = GetBigDecSafetyFactor p) ∧
    (∀ q : Params, q.PoolOpenThreshold = p.PoolOpenThreshold →
      GetBigDecPoolOpenThreshold q = GetBigDecPoolOpenThreshold p) ∧
    (∀ q : Params, q.ExitBuffer = p.ExitBuffer →
      GetBigDecExitBuffer q = GetBigDecExitBuffer p) := by
  refine ⟨fun v h => bigDecFromDec_some _ v h, fun v h => bigDecFromDec_some _ v h,
    fun v h => bigDecFromDec_some _ v h, ?_, ?_, ?_⟩
  · intro q h
    simp only [GetBigDecSafetyFactor, h]
  · intro q h
    simp only [GetBigDecPoolOpenThreshold, h]
  · intro q h
    simp only [GetBigDecExitBuffer, h]

theorem GetBigDec_lossless_witness :
    GetBigDecSafetyFactor NewParams = some ⟨1100000000000000000000000000000000000⟩ ∧
      (⟨1100000000000000000000000000000000000⟩ : BigDec).Dec = NewParams.SafetyFactor ∧
      GetBigDecPoolOpenThreshold NewParams = some ⟨200000000000000000000000000000000000⟩ ∧
      GetBigDecExitBuffer NewParams = some ⟨50000000000000000000000000000000000⟩ ∧
      GetBigDecExitBuffer { NewParams with SafetyFactor := ⟨none⟩ } =
        GetBigDecExitBuffer NewParams := by
  obtain ⟨b1, h1, hv1, -, hd1⟩ :=
    (GetBigDec_lossless NewParams).1 1100000000000000000 (by decide)
  obtain ⟨b2, h2, hv2, -, -⟩ :=
    (GetBigDec_lossless NewParams).2.1 200000000000000000 (by decide)
  obtain ⟨b3, h3, hv3, -, -⟩ :=
    (GetBigDec_lossless NewParams).2.2.1 50000000000000000 (by decide)
  have e1 : b1 = ⟨1100000000000000000000000000000000000⟩ := by
    cases b1
    simp only at hv1
    rw [hv1]
    rfl
  have e2 : b2 = ⟨200000000000000000000000000000000000⟩ := by
    cases b2
    simp only at hv2
    rw [hv2]
    rfl
  have e3 : b3 = ⟨50000000000000000000000000000000000⟩ := by
    cases b3
    simp only at hv3
    rw [hv3]
    rfl
  subst e1 e2 e3
  exact ⟨h1, hd1, h2, h3,
    (GetBigDec_lossless NewParams).2.2.2.2.2 { NewParams with SafetyFactor := ⟨none⟩ } rfl⟩

/-- Counterexample to claim C14 as stated: on the default set with
SafetyFactor, PoolOpenThreshold and ExitBuffer absent, none of the three
getters returns a value; each panics on the nil integer. -/
theorem GetBigDec_nil_counterexample :
    GetBigDecSafetyFactor nilAdapterCandidate = none ∧
      GetBigDecPoolOpenThreshold nilAdapterCandidate = none ∧
      GetBigDecExitBuffer nilAdapterCandidate = none ∧
      nilAdapterCandidate.SafetyFactor.IsNil = true ∧
      nilAdapterCandidate.PoolOpenThreshold.IsNil = true ∧
      nilAdapterCandidate.ExitBuffer.IsNil = true := by
  decide

/-- Claim C14, amended: for every parameter record, validated or not, each
getter returns a value whenever its own field is present, whatever the value
(zero and negative included) and whatever the other fields are. -/
theorem GetBigDec_total_on_present (p : Params) :
    (p.SafetyFactor.IsNil = false → (GetBigDecSafetyFactor p).isSome = true) ∧
    (p.PoolOpenThreshold.IsNil = false → (GetBigDecPoolOpenThreshold p).isSome = true) ∧
    (p.ExitBuffer.IsNil = false → (GetBigDecExitBuffer p).isSome = true) := by
  have key : ∀ d : LegacyDec, d.IsNil = false → (BigDecFromDec d).isSome = true := by
    intro d hd
    cases hi : d.i with
    | none => simp [LegacyDec.IsNil, hi] at hd
    | some v => simp [BigDecFromDec, hi]
  exact ⟨key _, key _, key _⟩

theorem GetBigDec_total_on_present_witness :
    (GetBigDecSafetyFactor { NewParams with SafetyFactor := ⟨some 0⟩,
                                            LeverageMax := ⟨none⟩ }).isSome = true ∧
      (GetBigDecPoolOpenThreshold
        { NewParams with PoolOpenThreshold := ⟨some (-200000000000000000)⟩ }).isSome = true ∧
      (GetBigDecExitBuffer { NewParams with ExitBuffer := ⟨some (-1)⟩ }).isSome = true :=
  ⟨(GetBigDec_total_on_present _).1 (by decide),
    (GetBigDec_total_on_present _).2.1 (by decide),
    (GetBigDec_total_on_present _).2.2 (by decide)⟩

/-! ## The working set of the scan -/

theorem containsDuplicatesLoop_congr (arr m m' : List Nat) (h : ∀ x, x ∈ m ↔ x ∈ m') :
    containsDuplicatesLoop m arr = containsDuplicatesLoop m' arr := by
  induction arr generalizing m m' with
  | nil => rfl
  | cons num rest ih =>
    unfold containsDuplicatesLoop
    by_cases hm : num ∈ m
    · rw [if_pos hm, if_pos ((h num).mp hm)]
    · rw [if_neg hm, if_neg (fun hm' => hm ((h num).mpr hm'))]
      apply ih
      intro x
      simp only [List.mem_cons, h x]

/-! ## The field named by an error -/

theorem isPrefixOf_append_of_length_le (l1 l2 l3 : List Char) (h : l1.length ≤ l2.length) :
    l1.isPrefixOf (l2 ++ l3) = l1.isPrefixOf l2 := by
  induction l1 generalizing l2 with
  | nil => simp
  | cons a l1 ih =>
    cases l2 with
    | nil => simp at h
    | cons b l2 =>
      simp only [List.length_cons, Nat.add_le_add_iff_right] at h
      have ih' := ih l2 h
      simp only [List.cons_append, List.isPrefixOf]
      rw [show l2.append l3 = l2 ++ l3 from rfl, ih']

theorem errorWords_length_le (f : Field) : f.errorWords.length ≤ 29 := by
  cases f <;> decide

theorem errorField_append (lit tail : String) (h : 29 ≤ lit.length) :
    errorField (lit ++ tail) = errorField lit := by
  unfold errorField
  congr 1
  funext f
  unfold startsWith
  rw [String.data_append]
  exact isPrefixOf_append_of_length_le _ _ _ (le_trans (errorWords_length_le f) h)

theorem errorField_startsWith (e : String) (f : Field) (h : errorField e = some f) :
    f.errorWords.data <+: e.data := by
  unfold errorField at h
  have := List.find?_some h
  exact List.isPrefixOf_iff_prefix.mp this

theorem validate_error_field (MaxPageLimit : Int) (p : Params) (e : String)
    (h : Validate MaxPageLimit p = some e) :
    ∃ f, faultField MaxPageLimit p = some f ∧ errorField e = some f := by
  rcases p with ⟨⟨lm⟩, el, mo, ⟨po⟩, ⟨sf⟩, we, fe, nb, ep, ⟨eb⟩, sl, ⟨lf⟩⟩
  unfold Validate at h
  simp only [gt_iff_lt, not_lt] at h
  cases lm with
  | none =>
    simp only [Option.some.injEq] at h
    subst h
    exact ⟨.LeverageMax, by simp [faultField, fieldOrder, Field.holds], by decide⟩
  | some lm =>
  by_cases h1 : lm ≤ oneInt
  · simp only [h1, if_true, Option.some.injEq] at h
    subst h
    exact ⟨.LeverageMax, by simp [faultField, fieldOrder, Field.holds, h1],
      by rw [errorField_append _ _ (by decide)]; decide⟩
  by_cases h2 : el ≤ 0
  · simp only [h1, h2, if_true, if_false, Option.some.injEq] at h
    subst h
    exact ⟨.EpochLength,
      by simp [faultField, fieldOrder, Field.holds, not_le.mp h1, not_lt.mpr h2],
      by rw [errorField_append _ _ (by decide)]; decide⟩
  cases po with
  | none =>
    simp only [h1, h2, if_false, Option.some.injEq] at h
    subst h
    exact ⟨.PoolOpenThreshold,
      by simp [faultField, fieldOrder, Field.holds, not_le.mp h1, not_le.mp h2], by decide⟩
  | some po =>
  by_cases h3 : po ≤ 0
  · simp only [h1, h2, h3, if_true, if_false, Option.some.injEq] at h
    subst h
    exact ⟨.PoolOpenThreshold,
      by simp [faultField, fieldOrder, Field.holds, not_le.mp h1, not_le.mp h2, h3],
      by rw [errorField_append _ _ (by decide)]; decide⟩
  cases sf with
  | none =>
    simp only [h1, h2, h3, if_false, Option.some.injEq] at h
    subst h
    exact ⟨.SafetyFactor,
      by simp [faultField, fieldOrder, Field.holds, not_le.mp h1, not_le.mp h2, not_le.mp h3],
      by decide⟩
  | some sf =>
  by_cases h4 : sf ≤ 0
  · simp only [h1, h2, h3, h4, if_true, if_false, Option.some.injEq] at h
    subst h
    exact ⟨.SafetyFactor,
      by simp [faultField, fieldOrder, Field.holds, not_le.mp h1, not_le.mp h2, not_le.mp h3,
        h4],
      by rw [errorField_append _ _ (by decide)]; decide⟩
  by_cases h5 : nb < 0
  · simp only [h1, h2, h3, h4, h5, if_true, if_false, Option.some.injEq] at h
    subst h
    exact ⟨.NumberPerBlock,
      by simp [faultField, fieldOrder, Field.holds, not_le.mp h1, not_le.mp h2, not_le.mp h3,
        not_le.mp h4, h5],
      by rw [errorField_append _ _ (by decide)]; decide⟩
  by_cases h6 : MaxPageLimit < nb
  · simp only [h1, h2, h3, h4, h5, h6, if_true, if_false, Option.some.injEq] at h
    subst h
    refine ⟨.NumberPerBlock,
      by simp [faultField, fieldOrder, Field.holds, not_le.mp h1, not_le.mp h2, not_le.mp h3,
        not_le.mp h4, h6], ?_⟩
    have hlen : 29 ≤
        ("number of positions per block should not exceed page limit: ").length := by decide
    rw [errorField_append _ _ (by simp only [String.length_append]; omega),
      errorField_append _ _ (by simp only [String.length_append]; omega),
      errorField_append _ _ hlen]
    decide
  cases h7 : containsDuplicates ep with
  | true =>
    simp only [h1, h2, h3, h4, h5, h6, h7, if_true, if_false, Option.some.injEq] at h
    subst h
    exact ⟨.EnabledPools,
      by simp [faultField, fieldOrder, Field.holds, not_le.mp h1, not_le.mp h2, not_le.mp h3,
        not_le.mp h4, not_lt.mp h5, not_lt.mp h6, (containsDuplicates_eq_true_iff ep).mp h7],
      by decide⟩
  | false =>
  have hnd : ep.Nodup := (containsDuplicates_eq_false_iff ep).mp h7
  cases eb with
  | none =>
    simp only [h1, h2, h3, h4, h5, h6, h7, if_false, Bool.false_eq_true,
      Option.some.injEq] at h
    subst h
    exact ⟨.ExitBuffer,
      by simp [faultField, fieldOrder, Field.holds, not_le.mp h1, not_le.mp h2, not_le.mp h3,
        not_le.mp h4, not_lt.mp h5, not_lt.mp h6, hnd],
      by decide⟩
  | some eb =>
  cases lf with
  | none =>
    simp only [h1, h2, h3, h4, h5, h6, h7, if_false, Bool.false_eq_true,
      Option.some.injEq] at h
    subst h
    exact ⟨.LiabilitiesFactor,
      by simp [faultField, fieldOrder, Field.holds, not_le.mp h1, not_le.mp h2, not_le.mp h3,
        not_le.mp h4, not_lt.mp h5, not_lt.mp h6, hnd],
      by decide⟩
  | some lf =>
  by_cases h8 : lf ≤ 0
  · simp only [h1, h2, h3, h4, h5, h6, h7, h8, if_true, if_false, Bool.false_eq_true,
      Option.some.injEq] at h
    subst h
    exact ⟨.LiabilitiesFactor,
      by simp [faultField, fieldOrder, Field.holds, not_le.mp h1, not_le.mp h2, not_le.mp h3,
        not_le.mp h4, not_lt.mp h5, not_lt.mp h6, hnd, h8],
      by rw [errorField_append _ _ (by decide)]; decide⟩
  by_cases h9 : oneInt < lf
  · simp only [h1, h2, h3, h4, h5, h6, h7, h8, h9, if_true, if_false, Bool.false_eq_true,
      Option.some.injEq] at h
    subst h
    exact ⟨.LiabilitiesFactor,
      by simp [faultField, fieldOrder, Field.holds, not_le.mp h1, not_le.mp h2, not_le.mp h3,
        not_le.mp h4, not_lt.mp h5, not_lt.mp h6, hnd, h9],
      by rw [errorField_append _ _ (by decide)]; decide⟩
  · simp [h1, h2, h3, h4, h5, h6, h7, h8, h9] at h

/-- Every error `Validate` returns belongs to the field at fault, the first
field in checking order whose constraint is violated, and starts with the
leading words of that field's messages. -/
theorem validate_error_startsWith (MaxPageLimit : Int) (p : Params) (e : String)
    (h : Validate MaxPageLimit p = some e) :
    ∃ f, faultField MaxPageLimit p = some f ∧ errorField e = some f ∧
      f.errorWords.data <+: e.data := by
  obtain ⟨f, hf, he⟩ := validate_error_field MaxPageLimit p e h
  exact ⟨f, hf, he, errorField_startsWith e f he⟩

/-- Claim C12: every error is to name the field at fault, and the duplicate
scan does not.  On the default set with EnabledPools `[1, 1]` the field at
fault is EnabledPools and the error is `array must not contain duplicate
values`, a text in which neither the identifier of the field nor the word
pool occurs; the errors of the neighbouring checks, on the default set with
SafetyFactor zero or ExitBuffer absent, do start with the name of their
field. -/
theorem Validate_duplicates_error_omits_field :
    faultField 10000 { NewParams with EnabledPools := [1, 1] } = some .EnabledPools ∧
      Validate 10000 { NewParams with EnabledPools := [1, 1] } =
        some "array must not contain duplicate values" ∧
      ¬ ("EnabledPools".data <:+: "array must not contain duplicate values".data) ∧
      ¬ ("enabled pools".data <:+: "array must not contain duplicate values".data) ∧
      ¬ ("pool".data <:+: "array must not contain duplicate values".data) ∧
      ¬ ("Pool".data <:+: "array must not contain duplicate values".data) ∧
      Validate 10000 { NewParams with SafetyFactor := ⟨some 0⟩ } =
        some "safety factor must be positive: 0.000000000000000000" ∧
      Validate 10000 { NewParams with ExitBuffer := ⟨none⟩ } =
        some "exit buffer must be not nil" := by
  decide

end Leveragelp
